import Mathlib

/-!
# Verification of mcp_server_for_databricks: credential lifecycle and statement execution

Shallow embedding, in Lean 4, of the core of the `mcp_server_for_databricks`
repository: the `TokenManager` / `ClientManager` credential lifecycle
(`src/mcp_server_for_databricks/auth/token_manager.py`,
`src/mcp_server_for_databricks/auth/databricks_auth.py`,
`src/mcp_server_for_databricks/client/manager.py`), the asynchronous
SQL-statement query phase and sample-merge of `get_table_sample`
(`src/mcp_server_for_databricks/databricks/tables.py`), the job-run
diagnostics of `get_run_result` (`src/mcp_server_for_databricks/databricks/jobs.py`)
with its tool-layer error mapping
(`src/mcp_server_for_databricks/mcp_tools/registry.py`), and the structural
configuration validation (`src/mcp_server_for_databricks/config/loader.py`).

External effects (CLI subprocesses, the Databricks REST API, the clock) are
passed in explicitly as oracle values; Python exceptions are modelled with
`Except` over an explicit error type that distinguishes the Python exception
classes the code branches on (`ValueError` versus everything else matters at
the tool layer, which maps `ValueError` to HTTP 404 and any other exception
to HTTP 500).
-/

/-- Model of the Python exception values raised by the embedded code.
The constructor distinguishes the exception class (the tool layer at
`mcp_tools/registry.py` branches on `except ValueError` versus
`except Exception`), and the payload is `str(e)`. -/
inductive PyErr where
  | valueError (msg : String)
  | typeError (msg : String)
  | keyError (msg : String)
  | indexError (msg : String)
  | httpError (status : Nat) (detail : String)
  deriving Repr, DecidableEq

/-- Python `str(e)` for an exception value: the message used when the exception is
interpolated into another message (Python `f"...: {e}"`). -/
def PyErr.msg : PyErr → String
  | .valueError m => m
  | .typeError m => m
  | .keyError m => m
  | .indexError m => m
  | .httpError _ d => d

/-! ## datetime model

`datetime` values carry an instant (as integer seconds) and an awareness
flag: `datetime.fromisoformat` yields an aware value exactly when the input
string carries a UTC offset, and a naive value otherwise.  Comparing an
aware value with a naive value raises `TypeError` in Python; comparing two
values of like awareness compares the instants. -/

/-- A Python `datetime` value: instant in seconds, plus whether the value is
timezone-aware (`tzinfo` set) or naive. -/
structure PyDatetime where
  seconds : Int
  aware : Bool
  deriving Repr, DecidableEq

/-- An ISO-8601 timestamp string as fed to `datetime.fromisoformat`,
pre-parsed into its instant and whether the text carries a UTC offset. -/
structure IsoTimestamp where
  seconds : Int
  hasOffset : Bool
  deriving Repr, DecidableEq

/-- Model of `datetime.fromisoformat`: the resulting value is timezone-aware exactly
when the input text carries an offset; a naive input is accepted and yields
a naive value (no rejection, no normalization). -/
def fromisoformat (t : IsoTimestamp) : PyDatetime :=
  { seconds := t.seconds, aware := t.hasOffset }

/-- Python `a > b` on two `datetime` values: raises `TypeError` when one is
aware and the other naive, otherwise compares the instants. -/
def pyDatetimeGt (a b : PyDatetime) : Except PyErr Bool :=
  if a.aware = b.aware then .ok (a.seconds > b.seconds)
  else .error (.typeError "cant compare offset-naive and offset-aware datetimes")

/-- Model of `datetime.now(timezone.utc)`: an aware value at the current instant. -/
def nowUtc (now : Int) : PyDatetime := { seconds := now, aware := true }

/-! ## TokenManager (`auth/token_manager.py`)

State: the two fields `access_token` and `token_expiry_datetime`, both
`None` on construction. -/

/-- The mutable state of a `TokenManager`. -/
structure TokenManagerState where
  access_token : Option String
  token_expiry_datetime : Option PyDatetime
  deriving Repr, DecidableEq

/-- A freshly constructed `TokenManager`: both fields `None`. -/
def TokenManagerState.fresh : TokenManagerState :=
  { access_token := none, token_expiry_datetime := none }

/-- Embeds `TokenManager.is_token_expired` (token_manager.py lines 17-26): `True`
when no expiry is stored; otherwise `datetime.now(timezone.utc) >
self.token_expiry_datetime`, which raises `TypeError` when the stored
expiry is naive. -/
def is_token_expired (st : TokenManagerState) (now : Int) : Except PyErr Bool :=
  match st.token_expiry_datetime with
  | none => .ok true
  | some e => pyDatetimeGt (nowUtc now) e

/-! ## get_databricks_token (`auth/databricks_auth.py` lines 96-135)

The external `databricks auth token` CLI call is an oracle value: either the
subprocess fails (`CalledProcessError`), or its stdout is not valid JSON
(`JSONDecodeError`), or it is a JSON object with an `access_token` field
(possibly absent or empty) and an `expiry` ISO-8601 timestamp. -/

/-- Outcome of the `databricks auth token` subprocess and JSON parse. -/
inductive CliTokenResult where
  | procError (msg : String)
  | badJson
  | output (access_token : Option String) (expiry : IsoTimestamp)
  deriving Repr, DecidableEq

/-- Embeds `get_databricks_token` (databricks_auth.py lines 96-135): a
`CalledProcessError` and a `JSONDecodeError` are each caught and re-raised
as `ValueError`; an absent or empty (falsy) `access_token` raises
`ValueError`; otherwise the pair `(access_token,
datetime.fromisoformat(expiry))` is returned.  The expiry string is parsed
by `fromisoformat` with no awareness check. -/
def get_databricks_token (cli : CliTokenResult) : Except PyErr (String × PyDatetime) :=
  match cli with
  | .procError m => .error (.valueError ("Failed to retrieve Databricks token: " ++ m))
  | .badJson => .error (.valueError "Invalid JSON response from databricks auth token command")
  | .output a e =>
    match a with
    | none => .error (.valueError "Could not extract access_token from Databricks token response")
    | some s =>
      if s.isEmpty then
        .error (.valueError "Could not extract access_token from Databricks token response")
      else
        .ok (s, fromisoformat e)

/-- Embeds `TokenManager.refresh_token` (token_manager.py lines 28-48).  The tuple
assignment `self.access_token, self.token_expiry_datetime =
get_databricks_token(host)` first fully evaluates the call: on an exception
neither field is assigned, and the `except Exception` clause re-raises a
single `ValueError` whose message embeds `str(e)`; on success both fields
are assigned from the returned pair.  Returns the new token together with
the post-call state. -/
def refresh_token (st : TokenManagerState) (cli : CliTokenResult) :
    Except PyErr String × TokenManagerState :=
  match get_databricks_token cli with
  | .error e => (.error (.valueError ("Token refresh failed: " ++ e.msg)), st)
  | .ok (tok, exp) =>
    (.ok tok, { access_token := some tok, token_expiry_datetime := some exp })

/-- Embeds `TokenManager.get_valid_token` (token_manager.py lines 50-65): when
`is_token_expired()` (which may raise) reports `True`, delegate to
`refresh_token`; otherwise return the cached `access_token` without any
external call.  The Boolean in the result records whether the external
token fetch was performed. -/
def get_valid_token (st : TokenManagerState) (now : Int) (cli : CliTokenResult) :
    Except PyErr (Option String) × TokenManagerState × Bool :=
  match is_token_expired st now with
  | .error e => (.error e, st, false)
  | .ok true =>
    match refresh_token st cli with
    | (.error e, st1) => (.error e, st1, true)
    | (.ok tok, st1) => (.ok (some tok), st1, true)
  | .ok false => (.ok st.access_token, st, false)

/-! ## ClientManager (`client/manager.py`)

The manager owns the configuration dict, an optional `WorkspaceClient`, a
`TokenManager` and the `_initialization_complete` flag.  One call to
`ClientManager.initialize` is embedded as a function of the current state
and an environment supplying the clock, the result of the external
`databricks_login` CLI flow, and the `databricks auth token` CLI outcome.
The list of external CLI round trips performed by the call is returned
alongside the outcome, so that claims about how many external calls happen
can be stated. -/

/-- The `workspace` section of the configuration dict, as the manager reads
it: only the `url` key matters to `client/manager.py`.  `none` models an
absent key. -/
structure WorkspaceSection where
  url : Option String
  deriving Repr, DecidableEq

/-- The configuration dict handed to `ClientManager`: `none` models an
absent `workspace` key. -/
structure ConfigDict where
  workspace : Option WorkspaceSection
  deriving Repr, DecidableEq

/-- Whether `config.get("workspace", {}).get("url")` is truthy: the section exists,
the key exists, and the string is non-empty (manager.py line 37). -/
def configUrlTruthy (c : ConfigDict) : Bool :=
  match c.workspace with
  | none => false
  | some w =>
    match w.url with
    | none => false
    | some u => !u.isEmpty

/-- Dict indexing `self.config["workspace"]["url"]`: raises `KeyError` when the section
or the key is absent (manager.py lines 40 and 62). -/
def configUrlIndex (c : ConfigDict) : Except PyErr String :=
  match c.workspace with
  | none => .error (.keyError "workspace")
  | some w =>
    match w.url with
    | none => .error (.keyError "url")
    | some u => .ok u

/-- The `WorkspaceClient` handle: host and bearer token it was built with. -/
structure WorkspaceClientHandle where
  host : String
  token : Option String
  deriving Repr, DecidableEq

/-- The mutable state of a `ClientManager` (manager.py lines 13-18). -/
structure ClientManagerState where
  config : ConfigDict
  client : Option WorkspaceClientHandle
  token_manager : TokenManagerState
  initialization_complete : Bool
  deriving Repr, DecidableEq

/-- A freshly constructed `ClientManager` over a configuration: no client,
fresh token manager, completion flag `False`. -/
def ClientManagerState.fresh (cfg : ConfigDict) : ClientManagerState :=
  { config := cfg
    client := none
    token_manager := TokenManagerState.fresh
    initialization_complete := false }

/-- One external CLI round trip performed by the manager: the
`databricks_login` flow (`databricks auth token` status check, possibly
followed by `databricks auth login`), or the `databricks auth token` fetch
inside `get_databricks_token`. -/
inductive ExtCall where
  | loginCli
  | tokenFetchCli
  deriving Repr, DecidableEq

/-- The environment of one `ClientManager.initialize` call: the current
time, the Boolean outcome of the external `databricks_login` flow
(databricks_auth.py lines 8-94; the function returns a Boolean and raises
nothing), and the `databricks auth token` CLI outcome consumed by
`get_databricks_token` if a token fetch happens. -/
structure AuthEnv where
  now : Int
  loginResult : Bool
  cli : CliTokenResult
  deriving Repr, DecidableEq

/-- Embeds `ClientManager._full_initialization` (manager.py lines 32-56): validate
that the workspace URL is truthy, run the external `databricks_login` flow,
fetch a valid token through `get_valid_token`, build the `WorkspaceClient`,
and set `_initialization_complete = True`. -/
def full_initialization (st : ClientManagerState) (env : AuthEnv) :
    Except PyErr Unit × ClientManagerState × List ExtCall :=
  if !configUrlTruthy st.config then
    (.error (.valueError "Missing workspace URL in configuration"), st, [])
  else
    match configUrlIndex st.config with
    | .error e => (.error e, st, [])
    | .ok host =>
      if !env.loginResult then
        (.error (.valueError
          "Failed to authenticate with Databricks. Please check your credentials."),
          st, [.loginCli])
      else
        match get_valid_token st.token_manager env.now env.cli with
        | (.error e, tm1, fetched) =>
          (.error e, { st with token_manager := tm1 },
            [.loginCli] ++ (if fetched then [.tokenFetchCli] else []))
        | (.ok tok, tm1, fetched) =>
          (.ok (),
            { st with
              token_manager := tm1
              client := some { host := host, token := tok }
              initialization_complete := true },
            [.loginCli] ++ (if fetched then [.tokenFetchCli] else []))

/-- Embeds `ClientManager._refresh_authentication` (manager.py lines 58-70): read
the host with a plain dict index, fetch a valid token through
`get_valid_token`, and rebuild the `WorkspaceClient`.  The
`_initialization_complete` flag is not touched, and the configuration is
not validated. -/
def refresh_authentication (st : ClientManagerState) (env : AuthEnv) :
    Except PyErr Unit × ClientManagerState × List ExtCall :=
  match configUrlIndex st.config with
  | .error e => (.error e, st, [])
  | .ok host =>
    match get_valid_token st.token_manager env.now env.cli with
    | (.error e, tm1, fetched) =>
      (.error e, { st with token_manager := tm1 },
        if fetched then [.tokenFetchCli] else [])
    | (.ok tok, tm1, fetched) =>
      (.ok (),
        { st with
          token_manager := tm1
          client := some { host := host, token := tok } },
        if fetched then [.tokenFetchCli] else [])

/-- The branch of `ClientManager.initialize` after the early-return check
(manager.py lines 26-30): re-query `is_token_expired` and dispatch to the
refresh path when the token is expired (or was never set), and to the full
path otherwise. -/
def ensure_ready_branch (st : ClientManagerState) (env : AuthEnv) :
    Except PyErr Unit × ClientManagerState × List ExtCall :=
  match is_token_expired st.token_manager env.now with
  | .error e => (.error e, st, [])
  | .ok true => refresh_authentication st env
  | .ok false => full_initialization st env

/-- Embeds `ClientManager.initialize` (manager.py lines 20-30), the `ensure_ready`
gate of the specification.  Line 22: when `_initialization_complete` holds
and the token is not expired, return without any external call (the
conjunction short-circuits, so `is_token_expired` runs only when the flag
is set). -/
def ensure_ready (st : ClientManagerState) (env : AuthEnv) :
    Except PyErr Unit × ClientManagerState × List ExtCall :=
  if st.initialization_complete then
    match is_token_expired st.token_manager env.now with
    | .error e => (.error e, st, [])
    | .ok false => (.ok (), st, [])
    | .ok true => ensure_ready_branch st env
  else ensure_ready_branch st env

/-! ## Statement execution: the query phase of get_table_sample (`databricks/tables.py` lines 46-94)

The `databricks.sdk.service.sql.StatementState` type is a plain Python
`Enum` (the file imports it and compares with `StatementState.SUCCEEDED` at
line 80).  A plain `Enum` member is equal only to itself — `__eq__` falls
back to object identity — so it never compares equal to a `str`.  The value
model `PyVal` captures exactly the two kinds of Python values the poll-loop
condition at line 75 mixes: enum members and string literals. -/

/-- The SDK enum `databricks.sdk.service.sql.StatementState`, a plain Python `Enum`. -/
inductive StatementState where
  | pending
  | running
  | succeeded
  | failed
  | canceled
  | closed
  deriving Repr, DecidableEq

/-- Python `str(member)` for a `StatementState` member, as interpolated by the
f-string at tables.py line 81. -/
def StatementState.pyStr : StatementState → String
  | .pending => "StatementState.PENDING"
  | .running => "StatementState.RUNNING"
  | .succeeded => "StatementState.SUCCEEDED"
  | .failed => "StatementState.FAILED"
  | .canceled => "StatementState.CANCELED"
  | .closed => "StatementState.CLOSED"

/-- A Python value appearing in the poll-loop condition: a `str`, or a
`StatementState` enum member. -/
inductive PyVal where
  | str (s : String)
  | enumState (s : StatementState)
  deriving Repr, DecidableEq

/-- Python `==` between two such values: `str == str` compares text,
`enum == enum` compares members; an enum member and a `str` are never
equal (a plain `Enum` defines no cross-type equality, so `==` falls back
to identity). -/
def pyValEq : PyVal → PyVal → Bool
  | .str a, .str b => a == b
  | .enumState a, .enumState b => a == b
  | _, _ => false

/-- Python `v in l` for a list literal: `==` against each element. -/
def pyValIn (v : PyVal) (l : List PyVal) : Bool :=
  l.any (fun w => pyValEq v w)

/-- A JSON value inside the inline `JSON_ARRAY` result: a string or null. -/
inductive JsonVal where
  | null
  | s (v : String)
  deriving Repr, DecidableEq

/-- One `get_statement` response: the status state, the optional
`status.error` object (its `message`), the inline result `data_array`
and the column names of the result manifest. -/
structure StmtResponse where
  state : StatementState
  errorMessage : Option String
  dataArray : List (List JsonVal)
  manifestColumns : List String
  deriving Repr, DecidableEq

/-- The remote-API environment of one `get_table_sample` call: the outcome
of `execute_statement` (the statement id, or the message of a raised
transport exception), the outcome of the first `get_statement`, and the
outcomes of any further `get_statement` calls the poll loop would make. -/
structure StmtExecEnv where
  submit : Except String String
  firstFetch : Except String StmtResponse
  laterFetches : List (Except String StmtResponse)
  deriving Repr

/-- One remote API call made by the query phase, recorded for claims about
which remote calls happen. -/
inductive RemoteCall where
  | executeStatementCall (query : String)
  | getStatementCall
  deriving Repr, DecidableEq

/-- The poll loop at tables.py lines 75-78:
`while result.status.state in ["PENDING", "RUNNING"]: sleep(1); result =
get_statement(...)`.  The condition compares a `StatementState` enum
member against `str` literals.  Arguments: the current response, the
outcomes of the remaining `get_statement` calls, and returns the response
the loop stops at together with how many 1-second sleeps and re-fetches it
performed.  The `[]` case can only be reached when the loop wants to
re-fetch beyond the modelled stream; `pyValIn_state_literals_false` below
proves the condition is always false, so that case is unreachable. -/
def pollStatement : StmtResponse → List (Except String StmtResponse) →
    Nat → Except String (StmtResponse × Nat)
  | cur, rest, sleeps =>
    if pyValIn (.enumState cur.state) [.str "PENDING", .str "RUNNING"] then
      match rest with
      | [] => .error "poll stream exhausted"
      | .error m :: _ => .error m
      | .ok next :: rest1 => pollStatement next rest1 (sleeps + 1)
  else .ok (cur, sleeps)

/-- Python dict insertion: updating an existing key keeps its position,
a new key is appended (insertion order preserved). -/
def dictInsert {α : Type} (d : List (String × α)) (k : String) (v : α) :
    List (String × α) :=
  match d with
  | [] => [(k, v)]
  | (k0, v0) :: rest =>
    if k0 == k then (k0, v) :: rest else (k0, v0) :: dictInsert rest k v

/-- Python `dict(zip(names, vals))`: `zip` truncates to the shorter sequence and
the dict keeps the last value of a repeated key. -/
def dictOfZip {α : Type} (names : List String) (vals : List α) :
    List (String × α) :=
  (names.zip vals).foldl (fun d p => dictInsert d p.1 p.2) []

/-- The query phase of `get_table_sample` (tables.py lines 46-94): the
`warehouse_id` guard, the query text, submission, the poll loop, the
terminal-state check, and the `sample_dict` construction.  Any exception
inside the inner `try` (submission or fetch transport failure, or the
explicit non-`SUCCEEDED` `ValueError`) is caught at line 86 and re-raised
as `ValueError` with the `Failed to execute query: ` prefix; the outer
handlers at lines 119-124 re-raise unchanged.  Returns the rows as
column-name-to-value dicts, plus the remote calls performed. -/
def run_sample_query (warehouse_id catalog schema table : String)
    (sample_size : Nat) (env : StmtExecEnv) :
    Except PyErr (List (List (String × JsonVal))) × List RemoteCall :=
  if warehouse_id.isEmpty then
    (.error (.valueError "Warehouse ID is required"), [])
  else
    let query := "SELECT * FROM " ++ catalog ++ "." ++ schema ++ "." ++ table
      ++ " LIMIT " ++ toString sample_size
    match env.submit with
    | .error m =>
      (.error (.valueError ("Failed to execute query: " ++ m)),
        [.executeStatementCall query])
    | .ok _stmtId =>
      match env.firstFetch with
      | .error m =>
        (.error (.valueError ("Failed to execute query: " ++ m)),
          [.executeStatementCall query, .getStatementCall])
      | .ok resp0 =>
        match pollStatement resp0 env.laterFetches 0 with
        | .error m =>
          (.error (.valueError ("Failed to execute query: " ++ m)),
            [.executeStatementCall query, .getStatementCall])
        | .ok (final, sleeps) =>
          let trace := [RemoteCall.executeStatementCall query]
            ++ List.replicate (1 + sleeps) RemoteCall.getStatementCall
          if final.state ≠ StatementState.succeeded then
            let errorMessage :=
              "Statement execution failed with state: " ++ final.state.pyStr
                ++ (match final.errorMessage with
                    | some m => ", Error: " ++ m
                    | none => "")
            (.error (.valueError ("Failed to execute query: " ++ errorMessage)),
              trace)
          else
            (.ok (final.dataArray.map (fun row =>
              dictOfZip final.manifestColumns row)), trace)

/-! ## Sample-value merge (`databricks/tables.py` lines 106-112)

For each column of the table metadata, the code computes
`[row.get(column_name) for row in sample_dict if column_name in row]`
and stores it as the column's `sample_values`. -/

/-- Python `key in row` for a dict modelled as an association list. -/
def rowHasKey {α : Type} (r : List (String × α)) (c : String) : Bool :=
  r.any (fun p => p.1 == c)

/-- Python `row.get(key)` for a dict modelled as an association list. -/
def rowGet {α : Type} (r : List (String × α)) (c : String) : Option α :=
  (r.find? (fun p => p.1 == c)).map (fun p => p.2)

/-- The per-column comprehension at tables.py line 111:
`[row.get(column_name) for row in sample_dict if column_name in row]`. -/
def columnSampleValues {α : Type} (c : String)
    (rows : List (List (String × α))) : List α :=
  rows.filterMap (fun r => if rowHasKey r c then rowGet r c else none)

/-- The merge loop at tables.py lines 108-112: each column name of the
metadata is paired with its extracted `sample_values`. -/
def mergeSampleValues {α : Type} (columns : List String)
    (rows : List (List (String × α))) : List (String × List α) :=
  columns.map (fun c => (c, columnSampleValues c rows))

/-! ## Job run diagnostics (`databricks/jobs.py` lines 8-98)

`client.jobs.list` and `client.jobs.list_runs` in the Databricks SDK are
generator functions: calling one returns a generator object without
running it, and a generator object is always truthy, whatever it will
yield.  The guard `if not job_id:` at jobs.py line 41 therefore tests the
truthiness of a generator, not emptiness. -/

/-- Python truthiness of a generator object: always `True`, regardless of
what the generator will yield (generators define no `__bool__` or
`__len__`). The parameter carries the elements the generator would yield,
which the truthiness test never looks at. -/
def generatorTruthy {α : Type} (_items : List α) : Bool := true

/-- One job as yielded by `client.jobs.list`; `job_id` is optional in the
SDK model. -/
structure BaseJob where
  job_id : Option Nat
  deriving Repr, DecidableEq

/-- One run as yielded by `client.jobs.list_runs(completed_only=True)`:
its optional `run_id` and `run.state.result_state.value` (the embedding
assumes the `state.result_state` chain is present, as the code does). -/
structure JobRun where
  run_id : Option Nat
  resultState : String
  deriving Repr, DecidableEq

/-- One task of a run: `task.run_id`, `task.end_time`, and
`task.state.result_state.value`. -/
structure JobTask where
  run_id : Nat
  end_time : Int
  resultState : String
  deriving Repr, DecidableEq

/-- The `get_run_output` payload: `error`, `error_trace`, and the string
form of `metadata.as_dict()`. -/
structure RunOutput where
  error : Option String
  error_trace : Option String
  metadataStr : String
  deriving Repr, DecidableEq

/-- Python f-string interpolation of a possibly-`None` value. -/
def optStr : Option String → String
  | none => "None"
  | some s => s

/-- The remote environment of one `get_run_result` call: what
`jobs.list(name=job_name, limit=1)` would yield, what
`jobs.list_runs(job_id, completed_only=True)` would yield, the `tasks` of
the selected run returned by `jobs.get_run`, and the outcome of the final
`jobs.get_run_output` call (ok payload, or the message of a raised
transport exception). -/
structure JobsEnv where
  jobs : List BaseJob
  runs : List JobRun
  tasks : List JobTask
  output : Except String RunOutput
  deriving Repr

/-- The task-selection loop at jobs.py lines 76-82: keep the latest
`end_time` task that passes the failed-filter; a task newer than the
current best but rejected by the filter does not advance the timestamp. -/
def selectLatestTask (filter_for_failed_runs : Bool) (tasks : List JobTask) :
    Option Nat × Int :=
  tasks.foldl
    (fun acc task =>
      if task.end_time > acc.2 then
        if !filter_for_failed_runs || task.resultState == "FAILED" then
          (some task.run_id, task.end_time)
        else acc
      else acc)
    (none, -999)

/-- Embeds `get_run_result` (jobs.py lines 8-98).  The emptiness guard at line 41
tests a generator object and never fires; an empty job listing or run
listing instead raises `IndexError` from `list(...)[0]`.  The
`filter_for_failed_runs` branch raises `ValueError` when no `FAILED` run
is found.  The handlers at lines 93-98 re-raise unchanged. -/
def get_run_result (job_name : String) (filter_for_failed_runs : Bool)
    (env : JobsEnv) : Except PyErr String :=
  if !generatorTruthy env.jobs then
    .error (.valueError ("No job found with name: " ++ job_name))
  else
    match env.jobs with
    | [] => .error (.indexError "list index out of range")
    | _job :: _ =>
      let selected : Except PyErr (Option Nat) :=
        if !filter_for_failed_runs then
          match env.runs with
          | [] => .error (.indexError "list index out of range")
          | r :: _ => .ok r.run_id
        else
          match env.runs.find? (fun r => r.resultState == "FAILED") with
          | none => .error (.valueError ("No failed runs found for job: " ++ job_name))
          | some r =>
            match r.run_id with
            | none => .error (.valueError ("No failed runs found for job: " ++ job_name))
            | some rid => .ok (some rid)
      match selected with
      | .error e => .error e
      | .ok none => .error (.valueError ("No runs found for job: " ++ job_name))
      | .ok (some _rid) =>
        let (_lastFailedId, _lastTs) := selectLatestTask filter_for_failed_runs env.tasks
        match env.output with
        | .error m => .error (.valueError m)
        | .ok out =>
          .ok ("Error message: " ++ optStr out.error
            ++ "\nError traceback: " ++ optStr out.error_trace
            ++ "\nMetadata: " ++ out.metadataStr)

/-- The exception mapping of `get_job_run_result_tool`
(mcp_tools/registry.py lines 155-160) applied to the outcome of the
`get_run_result` call (client initialization assumed already successful):
`ValueError` becomes an HTTP 404 with the message as detail, any other
exception becomes an HTTP 500 with a `Failed to get run result: ` prefix. -/
def get_job_run_result_tool (r : Except PyErr String) : Except PyErr String :=
  match r with
  | .ok s => .ok s
  | .error (.valueError m) => .error (.httpError 404 m)
  | .error e => .error (.httpError 500 ("Failed to get run result: " ++ e.msg))

/-! ## Configuration validation (`config/loader.py` lines 34-90) -/

/-- A YAML scalar as loaded by `yaml.safe_load`: string, int, bool, or any
other shape. -/
inductive YamlVal where
  | s (v : String)
  | i (v : Int)
  | b (v : Bool)
  | other
  deriving Repr, DecidableEq

/-- The Python types the validator checks against. -/
inductive PyType where
  | tStr
  | tInt
  | tBool
  deriving Repr, DecidableEq

/-- Python `isinstance` on these shapes.  `bool` is a subclass of `int`,
so a bool passes an `int` check. -/
def pyIsinstance : YamlVal → PyType → Bool
  | .s _, .tStr => true
  | .i _, .tInt => true
  | .b _, .tInt => true
  | .b _, .tBool => true
  | _, _ => false

/-- The loaded config dict as far as the validator reads it: the optional
`workspace` section, a dict of field name to value. -/
structure YamlConfig where
  workspace : Option (List (String × YamlVal))
  deriving Repr, DecidableEq

/-- The `required_fields` table at loader.py lines 45-52, in dict order. -/
def requiredWorkspaceFields : List (String × PyType) :=
  [("url", .tStr), ("warehouse_id", .tStr), ("sample_size", .tInt),
    ("warehouse_name", .tStr)]

/-- The `optional_fields` table at loader.py lines 54-61, in dict order. -/
def optionalWorkspaceFields : List (String × PyType) :=
  [("catalog", .tStr), ("profile", .tStr), ("wait_timeout", .tStr),
    ("save_table_metadata", .tBool)]

/-- Embeds `validate_config_structure` (loader.py lines 34-90): `False` when the
`workspace` section is absent, when a field of `required_fields` is absent
or fails its `isinstance` check, or when a field of `optional_fields` is
present and fails its `isinstance` check; `True` otherwise. -/
def validate_config_structure (cfg : YamlConfig) : Bool :=
  match cfg.workspace with
  | none => false
  | some w =>
    requiredWorkspaceFields.all (fun p =>
      match rowGet w p.1 with
      | none => false
      | some v => pyIsinstance v p.2)
    && optionalWorkspaceFields.all (fun p =>
      match rowGet w p.1 with
      | none => true
      | some v => pyIsinstance v p.2)

/-! ## Concrete scenario values used by the theorems -/

/-- A valid configuration: workspace section present with a non-empty URL. -/
def exampleConfig : ConfigDict :=
  { workspace := some { url := some "https://dbc.example.com" } }

/-- An invalid configuration: workspace URL present but empty, which the
validation check at manager.py line 37 rejects. -/
def exampleEmptyUrlConfig : ConfigDict :=
  { workspace := some { url := some "" } }

/-- A healthy external-auth environment at time 0: the login flow succeeds
and the token CLI yields the token `tok` expiring at time 100 with a UTC
offset (aware). -/
def exampleAuthEnv : AuthEnv :=
  { now := 0, loginResult := true
    cli := .output (some "tok") { seconds := 100, hasOffset := true } }

/-- A remote environment whose statement is `PENDING` at the first status
fetch and `SUCCEEDED` at the next. -/
def pendingThenSucceededEnv : StmtExecEnv where
  submit := .ok "stmt-1"
  firstFetch := .ok
    { state := .pending, errorMessage := none, dataArray := [], manifestColumns := [] }
  laterFetches := [.ok
    { state := .succeeded, errorMessage := none, dataArray := [[.s "1"]],
      manifestColumns := ["a"] }]

/-- A remote environment whose statement is `RUNNING` at the first status
fetch and `SUCCEEDED` at the next. -/
def runningThenSucceededEnv : StmtExecEnv where
  submit := .ok "stmt-2"
  firstFetch := .ok
    { state := .running, errorMessage := none, dataArray := [], manifestColumns := [] }
  laterFetches := [.ok
    { state := .succeeded, errorMessage := none, dataArray := [[.s "1", .s "x"]],
      manifestColumns := ["a", "b"] }]

/-- A remote environment whose statement is already `SUCCEEDED` at the
first status fetch, with two result rows over columns `a`, `b`. -/
def succeededAtOnceEnv : StmtExecEnv where
  submit := .ok "stmt-3"
  firstFetch := .ok
    { state := .succeeded, errorMessage := none,
      dataArray := [[.s "1", .s "x"], [.s "2", .s "y"]], manifestColumns := ["a", "b"] }
  laterFetches := []

/-- A trivial successful `get_run_output` payload for the job scenarios. -/
def exampleRunOutput : RunOutput where
  error := none
  error_trace := none
  metadataStr := "m"

/-! # Theorems -/

/-- Helper: the poll-loop membership test compares a `StatementState` enum
member against `str` literals and is false for every state. -/
theorem pyValIn_state_literals_false (s : StatementState) :
    pyValIn (.enumState s) [.str "PENDING", .str "RUNNING"] = false := by
  rfl

/-- C1: the claim says the second of two back-to-back `ensure_ready()`
(`initialize()`) calls from a fresh, successfully initialized manager
performs no external login or token-fetch call.  On the embedded code, the
first call from a fresh manager succeeds through the token-refresh path
(one token-fetch CLI round trip, and it leaves `_initialization_complete`
false), and the second call then runs `_full_initialization`, performing an
external `databricks_login` CLI round trip: the second call is not an
external no-op. -/
theorem second_ensure_ready_performs_external_login :
    (ensure_ready (ClientManagerState.fresh exampleConfig) exampleAuthEnv).1 = .ok ()
    ∧ (ensure_ready (ClientManagerState.fresh exampleConfig) exampleAuthEnv).2.2
        = [ExtCall.tokenFetchCli]
    ∧ (ensure_ready (ClientManagerState.fresh exampleConfig) exampleAuthEnv).2.1.initialization_complete
        = false
    ∧ (ensure_ready
        (ensure_ready (ClientManagerState.fresh exampleConfig) exampleAuthEnv).2.1
        exampleAuthEnv).2.2 = [ExtCall.loginCli]
    ∧ (ensure_ready
        (ensure_ready (ClientManagerState.fresh exampleConfig) exampleAuthEnv).2.1
        exampleAuthEnv).1 = .ok () := by
  exact ⟨rfl, rfl, rfl, rfl, rfl⟩

/-- C2: the claim says the first `ensure_ready()`/`initialize()` call of a
freshly constructed manager validates the Configuration before returning.
On the embedded code, a fresh manager has no stored expiry, so
`is_token_expired()` is true and the call takes `_refresh_authentication`,
which performs no configuration validation: with an empty workspace URL —
which `_full_initialization` would reject with `Missing workspace URL in
configuration` — the first call succeeds anyway, builds a client bound to
the empty host, and performs no login. -/
theorem first_ensure_ready_skips_config_validation :
    (ensure_ready (ClientManagerState.fresh exampleEmptyUrlConfig) exampleAuthEnv).1 = .ok ()
    ∧ (ensure_ready (ClientManagerState.fresh exampleEmptyUrlConfig) exampleAuthEnv).2.1.client
        = some { host := "", token := some "tok" }
    ∧ (ensure_ready (ClientManagerState.fresh exampleEmptyUrlConfig) exampleAuthEnv).2.2
        = [ExtCall.tokenFetchCli]
    ∧ (full_initialization (ClientManagerState.fresh exampleEmptyUrlConfig) exampleAuthEnv).1
        = .error (.valueError "Missing workspace URL in configuration") := by
  exact ⟨rfl, rfl, rfl, rfl⟩

/-- C4: the claim says that for every fetched status whose state is
`PENDING` or `RUNNING` the code sleeps one second and re-fetches, leaving
the loop only at a terminal state.  On the embedded code the loop
condition compares `StatementState` enum members against `str` literals
and is always false, so the loop performs zero sleeps and zero re-fetches
and is left at whatever state the first fetch returned: a first fetch in
state `PENDING` leads directly to the non-`SUCCEEDED` error with exactly
one `get_statement` call. -/
theorem poll_loop_never_sleeps_or_refetches :
    (∀ (cur : StmtResponse) (rest : List (Except String StmtResponse)) (n : Nat),
      pollStatement cur rest n = .ok (cur, n))
    ∧ run_sample_query "wh" "c" "s" "t" 5 pendingThenSucceededEnv
      = (.error (.valueError
          "Failed to execute query: Statement execution failed with state: StatementState.PENDING"),
        [.executeStatementCall "SELECT * FROM c.s.t LIMIT 5", .getStatementCall]) := by
  constructor
  · intro cur rest n
    unfold pollStatement
    rw [pyValIn_state_literals_false]
    simp
  · rfl

/-- C3: the claim says the query phase returns the sampled rows if and only
if the statement reaches terminal state `SUCCEEDED`, raising only on a
non-`SUCCEEDED` terminal state or a transport failure.  On the embedded
code, a statement that is `RUNNING` at the first fetch and `SUCCEEDED` at
the next fetch — i.e. one that does reach terminal state `SUCCEEDED` — is
reported as a failure embedding the non-terminal state `RUNNING`, because
the poll loop never iterates; rows are returned exactly when the first
fetched state is already `SUCCEEDED` (second conjunct: the rows come back
zipped against the manifest column order). -/
theorem run_sample_query_errors_despite_eventual_success :
    run_sample_query "wh" "cat" "sch" "tbl" 3 runningThenSucceededEnv
      = (.error (.valueError
          "Failed to execute query: Statement execution failed with state: StatementState.RUNNING"),
        [.executeStatementCall "SELECT * FROM cat.sch.tbl LIMIT 3", .getStatementCall])
    ∧ run_sample_query "wh" "cat" "sch" "tbl" 3 succeededAtOnceEnv
      = (.ok [[("a", .s "1"), ("b", .s "x")], [("a", .s "2"), ("b", .s "y")]],
        [.executeStatementCall "SELECT * FROM cat.sch.tbl LIMIT 3", .getStatementCall]) := by
  exact ⟨rfl, rfl⟩

/-- C10: for every catalog, schema, table, sample size and remote
environment, calling the query phase with an empty (falsy) warehouse id
raises `ValueError` with message `Warehouse ID is required` and performs no
remote call at all (the trace is empty, so no statement — with any query
text — is ever submitted). -/
theorem empty_warehouse_id_raises_before_any_remote_call :
    ∀ (catalog schema table : String) (n : Nat) (env : StmtExecEnv),
      run_sample_query "" catalog schema table n env
        = (.error (.valueError "Warehouse ID is required"), []) := by
  intro catalog schema table n env
  rfl

/-- Helper for C6: the guarded comprehension
`[row.get(c) for row in rows if c in row]` equals extracting the value
from exactly those rows whose lookup of `c` succeeds. -/
theorem columnSampleValues_eq_filterMap {α : Type} (c : String)
    (rows : List (List (String × α))) :
    columnSampleValues c rows = rows.filterMap (fun r => rowGet r c) := by
  unfold columnSampleValues
  congr 1
  funext r
  by_cases h : rowHasKey r c
  · simp [h]
  · have hf : r.find? (fun p => p.1 == c) = none := by
      rw [List.find?_eq_none]
      intro x hx hpx
      exact h (List.any_eq_true.mpr ⟨x, hx, hpx⟩)
    simp [h, rowGet, hf]

/-- C6: merging sampled rows into table metadata pairs every column of the
metadata's column list with the ordered list of that column's values taken
from exactly those sampled rows that contain the column's key — rows
missing the key are skipped, not null-padded; in particular columns
`[a, b]` with rows `[{a:1, b:2}, {a:3}]` yield `[1, 3]` for `a` and `[2]`
for `b`. -/
theorem merge_sample_values_extracts_per_column :
    (∀ (α : Type) (columns : List String) (rows : List (List (String × α))),
      mergeSampleValues columns rows
        = columns.map (fun c => (c, rows.filterMap (fun r => rowGet r c))))
    ∧ mergeSampleValues ["a", "b"] [[("a", (1 : Int)), ("b", 2)], [("a", 3)]]
        = [("a", [1, 3]), ("b", [2])] := by
  constructor
  · intro α columns rows
    unfold mergeSampleValues
    simp only [columnSampleValues_eq_filterMap]
  · rfl

/-- C5: `TokenManager.refresh_token` replaces the credential atomically.
For every starting state and every outcome of the token CLI: when the call
fails it raises a single `ValueError` embedding the underlying cause and
leaves both stored fields exactly as they were; when `get_databricks_token`
succeeds, both `access_token` and `token_expiry_datetime` are replaced with
the fetched pair.  There is no outcome under which only one of the two
fields changes. -/
theorem refresh_token_atomic :
    ∀ (st : TokenManagerState) (cli : CliTokenResult),
      (∀ c, get_databricks_token cli = .error c →
        refresh_token st cli
          = (.error (.valueError ("Token refresh failed: " ++ c.msg)), st))
      ∧ (∀ tok exp, get_databricks_token cli = .ok (tok, exp) →
        refresh_token st cli
          = (.ok tok,
            { access_token := some tok, token_expiry_datetime := some exp })) := by
  intro st cli
  constructor
  · intro c hc
    unfold refresh_token
    rw [hc]
  · intro tok exp hok
    unfold refresh_token
    rw [hok]

/-- Witness for C5: the atomicity theorem applied at a concrete failing CLI
outcome (the stored credential is untouched and the error embeds the
cause) and at a concrete successful one (both fields replaced). -/
theorem refresh_token_atomic_witness :
    refresh_token
        { access_token := some "old", token_expiry_datetime := some { seconds := 5, aware := true } }
        (.procError "boom")
      = (.error (.valueError "Token refresh failed: Failed to retrieve Databricks token: boom"),
        { access_token := some "old", token_expiry_datetime := some { seconds := 5, aware := true } })
    ∧ refresh_token
        { access_token := some "old", token_expiry_datetime := some { seconds := 5, aware := true } }
        (.output (some "fresh") { seconds := 50, hasOffset := true })
      = (.ok "fresh",
        { access_token := some "fresh", token_expiry_datetime := some { seconds := 50, aware := true } }) :=
  ⟨(refresh_token_atomic _ _).1
      (PyErr.valueError "Failed to retrieve Databricks token: boom") rfl,
    (refresh_token_atomic _ _).2 "fresh" { seconds := 50, aware := true } rfl⟩

/-- C8 counterexample: the claim says every expiry accepted at the parsing
boundary is stored timezone-aware, so the expiry comparison never fails on
a naive-versus-aware mismatch.  On the embedded code, the boundary
(`get_databricks_token` with `datetime.fromisoformat`) accepts an ISO
timestamp that carries no UTC offset, stores it naive, and the very next
`is_token_expired()` raises `TypeError` comparing `datetime.now(utc)`
against it. -/
theorem naive_expiry_accepted_breaks_comparison :
    get_databricks_token (.output (some "tok") { seconds := 100, hasOffset := false })
      = .ok ("tok", { seconds := 100, aware := false })
    ∧ (refresh_token TokenManagerState.fresh
        (.output (some "tok") { seconds := 100, hasOffset := false })).2.token_expiry_datetime
      = some { seconds := 100, aware := false }
    ∧ is_token_expired
        (refresh_token TokenManagerState.fresh
          (.output (some "tok") { seconds := 100, hasOffset := false })).2 0
      = .error (.typeError "cant compare offset-naive and offset-aware datetimes") :=
  ⟨rfl, rfl, rfl⟩

/-- C8 amended: the parsing boundary stores the expiry exactly as
`fromisoformat` parses it — aware if and only if the ISO text carries a UTC
offset, with no rejection or normalization of naive timestamps.  The
expiry comparison in `is_token_expired` is well-defined whenever the
stored expiry is aware (or no credential is stored), and raises a
naive-versus-aware `TypeError` whenever a naive expiry was stored. -/
theorem expiry_awareness_follows_input_offset :
    (∀ t : IsoTimestamp, fromisoformat t = { seconds := t.seconds, aware := t.hasOffset })
    ∧ (∀ (st : TokenManagerState) (now : Int),
        (∀ e, st.token_expiry_datetime = some e → e.aware = true) →
        ∃ b, is_token_expired st now = .ok b)
    ∧ (∀ (st : TokenManagerState) (now : Int) (e : PyDatetime),
        st.token_expiry_datetime = some e → e.aware = false →
        is_token_expired st now
          = .error (.typeError "cant compare offset-naive and offset-aware datetimes")) := by
  refine ⟨fun t => rfl, ?_, ?_⟩
  · intro st now h
    unfold is_token_expired
    cases hst : st.token_expiry_datetime with
    | none => exact ⟨true, rfl⟩
    | some e =>
      have he := h e hst
      refine ⟨(nowUtc now).seconds > e.seconds, ?_⟩
      unfold pyDatetimeGt nowUtc
      simp [he]
  · intro st now e hst he
    unfold is_token_expired
    rw [hst]
    unfold pyDatetimeGt nowUtc
    simp [he]

/-- Witness for the C8 amended theorem: applied at a concrete aware-expiry
state (comparison well-defined) and a concrete naive-expiry state
(comparison raises). -/
theorem expiry_awareness_follows_input_offset_witness :
    (∃ b, is_token_expired
        { access_token := some "t", token_expiry_datetime := some { seconds := 9, aware := true } } 0
      = .ok b)
    ∧ is_token_expired
        { access_token := some "t", token_expiry_datetime := some { seconds := 9, aware := false } } 0
      = .error (.typeError "cant compare offset-naive and offset-aware datetimes") :=
  ⟨expiry_awareness_follows_input_offset.2.1 _ 0
      (fun e he => by cases he; rfl),
    expiry_awareness_follows_input_offset.2.2 _ 0 _ rfl rfl⟩

/-- C7: the claim says every not-found condition of `get_run_result` — no
job with the given name, no completed run, or `filter_for_failed_runs` set
with no failed run — surfaces at the tool layer as an HTTP-like 404.  On
the embedded code only the third condition does: `jobs.list` and
`list_runs` return generator objects, so the `if not job_id:` guard never
fires, and an empty job listing or an empty run listing instead raises
`IndexError` from `list(...)[0]`, which the tool layer maps to a generic
500. -/
theorem get_run_result_not_found_surfaces_500 :
    get_job_run_result_tool (get_run_result "missing_job" false
        { jobs := [], runs := [], tasks := [],
          output := .ok exampleRunOutput })
      = .error (.httpError 500 "Failed to get run result: list index out of range")
    ∧ get_job_run_result_tool (get_run_result "job_without_runs" false
        { jobs := [{ job_id := some 7 }], runs := [], tasks := [],
          output := .ok exampleRunOutput })
      = .error (.httpError 500 "Failed to get run result: list index out of range")
    ∧ get_job_run_result_tool (get_run_result "job_without_failures" true
        { jobs := [{ job_id := some 7 }],
          runs := [{ run_id := some 1, resultState := "SUCCESS" }], tasks := [],
          output := .ok exampleRunOutput })
      = .error (.httpError 404 "No failed runs found for job: job_without_failures") :=
  ⟨rfl, rfl, rfl⟩

/-- C9 counterexample: the claim says validation accepts a workspace
section holding `url`, `warehouse_id` and `warehouse_name` as strings while
omitting `sample_size`.  On the embedded code `sample_size` sits in the
validator's `required_fields` table, so exactly this configuration fails
validation. -/
theorem validate_rejects_config_without_sample_size :
    validate_config_structure
        { workspace := some
            [("url", .s "https://dbc.example.com"), ("warehouse_id", .s "wh1"),
              ("warehouse_name", .s "main")] }
      = false := rfl

/-- C9 amended: `validate_config_structure` treats `sample_size` as a
required field.  A configuration validates exactly when the `workspace`
section is present, each of `url`, `warehouse_id`, `sample_size`,
`warehouse_name` is present with its required type, and each optional field
(`catalog`, `profile`, `wait_timeout`, `save_table_metadata`) that is
present has its declared type; so validation fails only for a missing
required field (now including `sample_size`), a wrongly typed field, or a
missing `workspace` section. -/
theorem validate_config_structure_requires_sample_size :
    ∀ cfg : YamlConfig,
      validate_config_structure cfg = true
      ↔ ∃ w, cfg.workspace = some w
          ∧ (∀ p ∈ requiredWorkspaceFields,
              ∃ v, rowGet w p.1 = some v ∧ pyIsinstance v p.2 = true)
          ∧ (∀ p ∈ optionalWorkspaceFields,
              ∀ v, rowGet w p.1 = some v → pyIsinstance v p.2 = true) := by
  intro cfg
  unfold validate_config_structure
  cases hw : cfg.workspace with
  | none =>
    simp only [Bool.false_eq_true, false_iff]
    rintro ⟨w, hww, -⟩
    exact Option.noConfusion hww
  | some w =>
    rw [Bool.and_eq_true, List.all_eq_true, List.all_eq_true]
    constructor
    · rintro ⟨hreq, hopt⟩
      refine ⟨w, rfl, ?_, ?_⟩
      · intro p hp
        have := hreq p hp
        cases hg : rowGet w p.1 with
        | none => rw [hg] at this; exact absurd this (by simp)
        | some v => rw [hg] at this; exact ⟨v, rfl, this⟩
      · intro p hp v hv
        have := hopt p hp
        rw [hv] at this
        exact this
    · rintro ⟨w1, hw1, hreq, hopt⟩
      have hww : w1 = w := (Option.some.inj hw1).symm
      subst hww
      constructor
      · intro p hp
        obtain ⟨v, hv, hinst⟩ := hreq p hp
        rw [hv]
        exact hinst
      · intro p hp
        cases hg : rowGet w1 p.1 with
        | none => rfl
        | some v => exact hopt p hp v hg
